import Mathlib

/-!
Shallow embedding of the vectorMCP server (`src/server.js`): the tool
registry, the `callApi` remote-call adapter, and the `/mcp` JSON-RPC
dispatch handler.
-/

namespace VectorMCP

/-- JavaScript values as they occur in this program: JSON data plus the
distinguished `undefined` value produced by missing-property access and by
`err.response?.status` when there is no response. -/
inductive Json where
  | null
  | undefined
  | bool (b : Bool)
  | num (n : Int)
  | str (s : String)
  | arr (elems : List Json)
  | obj (fields : List (String × Json))

/-- JavaScript strict equality `v === s` against a string literal (the only
form of `===` the source uses: `method === "initialize"`, `t.name === name`).
On non-string values it is `false`; on strings it is string equality. -/
def Json.eqStr : Json → String → Bool
  | .str s, t => s == t
  | _, _ => false

/-- JavaScript truthiness, as used by `||` and `if (...)` in the source. -/
def jsTruthy : Json → Bool
  | .null => false
  | .undefined => false
  | .bool b => b
  | .num n => n != 0
  | .str s => s != ""
  | .arr _ => true
  | .obj _ => true

/-- JavaScript `a || b`. -/
def jsOr (a b : Json) : Json := if jsTruthy a then a else b

/-- Property access `v.k` / `v?.k` for the properties this program reads:
on an object, the first binding of the key (or `undefined`); on anything
else, `undefined`. -/
def Json.get : Json → String → Json
  | .obj fields, k =>
    match fields.find? (fun p => p.1 == k) with
    | some p => p.2
    | none => .undefined
  | _, _ => .undefined

/-- Whether an object value carries the key at all (distinct from the
truthiness check the code performs). -/
def Json.hasKey : Json → String → Bool
  | .obj fields, k => fields.any (fun p => p.1 == k)
  | _, _ => false

mutual

/-- JavaScript string conversion as performed by template literals
(`` `/athletes/${args.athlete_name}` ``): `undefined`/`null` print their
names, arrays join their elements with a comma printing holes as empty,
objects print as `[object Object]`. -/
def Json.toJsString : Json → String
  | .null => "null"
  | .undefined => "undefined"
  | .bool b => if b then "true" else "false"
  | .num n => toString n
  | .str s => s
  | .arr elems => String.intercalate "," (Json.toJsStringList elems)
  | .obj _ => "[object Object]"

/-- Element conversion inside `Array.prototype.toString`: `null` and
`undefined` elements print as empty. -/
def Json.toJsStringList : List Json → List String
  | [] => []
  | .null :: rest => "" :: Json.toJsStringList rest
  | .undefined :: rest => "" :: Json.toJsStringList rest
  | e :: rest => e.toJsString :: Json.toJsStringList rest

end

/-- One outbound HTTP request issued through axios: the four arguments of
`callApi(method, endpoint, data, params)`. -/
structure RemoteCall where
  method : String
  endpoint : String
  data : Json
  params : Json

/-- The HTTP response attached to an axios error (`err.response`), when the
remote service answered at all: a status code and a decoded body. -/
structure AxiosResponse where
  status : Int
  data : Json

/-- The outcome of one axios invocation: a decoded success payload, or an
error carrying an optional remote response (`err.response`) and a message
(`err.message`). -/
inductive AxiosResult where
  | success (data : Json)
  | failure (response : Option AxiosResponse) (message : String)

/-- The remote service is modelled as an oracle assigning an outcome to
every outbound request. -/
def Axios := RemoteCall → AxiosResult

/-- The structured failure value `callApi` builds in its `catch` block:
`{status: "erro", codigo: err.response?.status, detalhe: err.response?.data
|| err.message}`. -/
def failureValue (response : Option AxiosResponse) (message : String) : Json :=
  .obj
    [("status", .str "erro"),
     ("codigo", match response with | some r => .num r.status | none => .undefined),
     ("detalhe",
      jsOr (match response with | some r => r.data | none => .undefined) (.str message))]

/-- Function `callApi(method, endpoint, data, params)`: issues one axios request and
returns `res.data` on success, or the structured `failureValue` from the
`catch` block on error. The second component records the requests issued
(here always exactly one). -/
def callApi (axios : Axios) (method endpoint : String)
    (data : Json := .obj []) (params : Json := .obj []) : Json × List RemoteCall :=
  let c : RemoteCall := ⟨method, endpoint, data, params⟩
  match axios c with
  | .success d => (d, [c])
  | .failure response message => (failureValue response message, [c])

/-- One entry of the `tools` array: name, description, declared input
schema, and the handler. A handler receives the axios oracle and the
arguments value and returns its result together with the list of remote
calls it issued, in order. -/
structure ToolDef where
  name : String
  description : String
  inputSchema : Json
  handler : Axios → Json → Json × List RemoteCall

/-- Tool `adicionar_atleta`: `POST /athletes/` with a body built from the
arguments (`profile_data: args.profile_data || {}`). -/
def adicionar_atleta : ToolDef where
  name := "adicionar_atleta"
  description := "Cadastra um novo atleta"
  inputSchema := .obj
    [("type", .str "object"),
     ("properties", .obj
       [("customer_id", .obj [("type", .str "string")]),
        ("name", .obj [("type", .str "string")]),
        ("birth_date", .obj [("type", .str "string")]),
        ("sport", .obj [("type", .str "string")]),
        ("profile_data", .obj
          [("type", .str "object"),
           ("properties", .obj
             [("idade", .obj [("type", .str "string")]),
              ("sexo", .obj [("type", .str "string")]),
              ("peso_corporal_kg", .obj [("type", .str "string")]),
              ("altura_cm", .obj [("type", .str "string")]),
              ("fc_max", .obj [("type", .str "string")]),
              ("posicao", .obj [("type", .str "string")]),
              ("historico_lesoes", .obj
                [("type", .str "array"),
                 ("items", .obj [("type", .str "string")])])])])]),
     ("required", .arr [.str "customer_id", .str "name", .str "sport"])]
  handler := fun axios args =>
    callApi axios "POST" "/athletes/"
      (.obj
        [("customer_id", args.get "customer_id"),
         ("name", args.get "name"),
         ("birth_date", args.get "birth_date"),
         ("sport", args.get "sport"),
         ("profile_data", jsOr (args.get "profile_data") (.obj []))])

/-- Tool `listar_atletas`: `GET /athletes/` with `customer_id` as a query
parameter. -/
def listar_atletas : ToolDef where
  name := "listar_atletas"
  description := "Lista atletas cadastrados"
  inputSchema := .obj
    [("type", .str "object"),
     ("properties", .obj [("customer_id", .obj [("type", .str "string")])]),
     ("required", .arr [.str "customer_id"])]
  handler := fun axios args =>
    callApi axios "GET" "/athletes/" (.obj [])
      (.obj [("customer_id", args.get "customer_id")])

/-- Tool `buscar_atleta_pelo_nome`: `GET /athletes/${args.athlete_name}` with
`customer_id` as a query parameter. -/
def buscar_atleta_pelo_nome : ToolDef where
  name := "buscar_atleta_pelo_nome"
  description := "Busca atleta pelo nome"
  inputSchema := .obj
    [("type", .str "object"),
     ("properties", .obj
       [("customer_id", .obj [("type", .str "string")]),
        ("athlete_name", .obj [("type", .str "string")])]),
     ("required", .arr [.str "customer_id", .str "athlete_name"])]
  handler := fun axios args =>
    callApi axios "GET" ("/athletes/" ++ (args.get "athlete_name").toJsString)
      (.obj []) (.obj [("customer_id", args.get "customer_id")])

/-- Tool `deletar_atleta` (compound): `GET /athletes/${args.athlete_name}` to
resolve the name; if `atleta?.id` is truthy, `DELETE /athletes/${atleta.id}`
returning that outcome; otherwise the local not-found value, with no second
call. -/
def deletar_atleta : ToolDef where
  name := "deletar_atleta"
  description := "Remove atleta pelo nome"
  inputSchema := .obj
    [("type", .str "object"),
     ("properties", .obj
       [("customer_id", .obj [("type", .str "string")]),
        ("athlete_name", .obj [("type", .str "string")])]),
     ("required", .arr [.str "customer_id", .str "athlete_name"])]
  handler := fun axios args =>
    let r1 := callApi axios "GET" ("/athletes/" ++ (args.get "athlete_name").toJsString)
      (.obj []) (.obj [("customer_id", args.get "customer_id")])
    let atleta := r1.1
    if jsTruthy (atleta.get "id") then
      let r2 := callApi axios "DELETE" ("/athletes/" ++ (atleta.get "id").toJsString)
        (.obj [("customer_id", args.get "customer_id")])
      (r2.1, r1.2 ++ r2.2)
    else
      (.obj [("status", .str "erro"), ("detalhe", .str "Atleta não encontrado")], r1.2)

/-- Tool `registrar_treino`: `POST /workouts/` (`rpe: args.rpe || null`,
`duration_minutes: args.duration_minutes || null`). -/
def registrar_treino : ToolDef where
  name := "registrar_treino"
  description := "Registra treino para atleta"
  inputSchema := .obj
    [("type", .str "object"),
     ("properties", .obj
       [("customer_id", .obj [("type", .str "string")]),
        ("athlete_name", .obj [("type", .str "string")]),
        ("workout_details", .obj [("type", .str "string")]),
        ("rpe", .obj [("type", .str "integer")]),
        ("duration_minutes", .obj [("type", .str "integer")])]),
     ("required", .arr [.str "customer_id", .str "athlete_name", .str "workout_details"])]
  handler := fun axios args =>
    callApi axios "POST" "/workouts/"
      (.obj
        [("customer_id", args.get "customer_id"),
         ("athlete_name", args.get "athlete_name"),
         ("workout_details", args.get "workout_details"),
         ("rpe", jsOr (args.get "rpe") .null),
         ("duration_minutes", jsOr (args.get "duration_minutes") .null)])

/-- Tool `registrar_avaliacao`: `POST /assessments/`. -/
def registrar_avaliacao : ToolDef where
  name := "registrar_avaliacao"
  description := "Registra avaliação formal"
  inputSchema := .obj
    [("type", .str "object"),
     ("properties", .obj
       [("customer_id", .obj [("type", .str "string")]),
        ("athlete_name", .obj [("type", .str "string")]),
        ("tipo_avaliacao", .obj [("type", .str "string")]),
        ("resultados", .obj [("type", .str "object")])]),
     ("required", .arr
       [.str "customer_id", .str "athlete_name", .str "tipo_avaliacao", .str "resultados"])]
  handler := fun axios args =>
    callApi axios "POST" "/assessments/"
      (.obj
        [("customer_id", args.get "customer_id"),
         ("athlete_name", args.get "athlete_name"),
         ("tipo_avaliacao", args.get "tipo_avaliacao"),
         ("resultados", args.get "resultados")])

/-- Tool `registrar_bem_estar`: `POST /wellness/log`
(`dores_musculares: args.dores_musculares || "Nenhuma"`,
`prontidao_cmj: args.prontidao_cmj || null`). -/
def registrar_bem_estar : ToolDef where
  name := "registrar_bem_estar"
  description := "Registra bem-estar diário do atleta"
  inputSchema := .obj
    [("type", .str "object"),
     ("properties", .obj
       [("customer_id", .obj [("type", .str "string")]),
        ("athlete_name", .obj [("type", .str "string")]),
        ("qualidade_sono", .obj [("type", .str "string")]),
        ("nivel_estresse", .obj [("type", .str "string")]),
        ("dores_musculares", .obj [("type", .str "string")]),
        ("prontidao_cmj", .obj [("type", .str "string")])]),
     ("required", .arr
       [.str "customer_id", .str "athlete_name", .str "qualidade_sono", .str "nivel_estresse"])]
  handler := fun axios args =>
    callApi axios "POST" "/wellness/log"
      (.obj
        [("customer_id", args.get "customer_id"),
         ("athlete_name", args.get "athlete_name"),
         ("qualidade_sono", args.get "qualidade_sono"),
         ("nivel_estresse", args.get "nivel_estresse"),
         ("dores_musculares", jsOr (args.get "dores_musculares") (.str "Nenhuma")),
         ("prontidao_cmj", jsOr (args.get "prontidao_cmj") .null)])

/-- Tool `gerar_mesociclo`: `POST /planning/generate-mesocycle`
(`progression_details: args.progression_details || {}`). -/
def gerar_mesociclo : ToolDef where
  name := "gerar_mesociclo"
  description := "Gera mesociclo de treino"
  inputSchema := .obj
    [("type", .str "object"),
     ("properties", .obj
       [("customer_id", .obj [("type", .str "string")]),
        ("athlete_name", .obj [("type", .str "string")]),
        ("meso_name", .obj [("type", .str "string")]),
        ("start_date", .obj [("type", .str "string")]),
        ("duracao_semanas", .obj [("type", .str "string")]),
        ("progression_type", .obj [("type", .str "string")]),
        ("progression_details", .obj [("type", .str "object")])]),
     ("required", .arr
       [.str "customer_id", .str "athlete_name", .str "meso_name",
        .str "duracao_semanas", .str "progression_type"])]
  handler := fun axios args =>
    callApi axios "POST" "/planning/generate-mesocycle"
      (.obj
        [("customer_id", args.get "customer_id"),
         ("athlete_name", args.get "athlete_name"),
         ("meso_name", args.get "meso_name"),
         ("start_date", args.get "start_date"),
         ("duracao_semanas", args.get "duracao_semanas"),
         ("progression_type", args.get "progression_type"),
         ("progression_details", jsOr (args.get "progression_details") (.obj []))])

/-- Tool `gerar_relatorio_atleta`:
`GET /reports/athlete-report/${args.athlete_name}` with `customer_id` as a
query parameter. -/
def gerar_relatorio_atleta : ToolDef where
  name := "gerar_relatorio_atleta"
  description := "Gera relatório completo de atleta"
  inputSchema := .obj
    [("type", .str "object"),
     ("properties", .obj
       [("customer_id", .obj [("type", .str "string")]),
        ("athlete_name", .obj [("type", .str "string")])]),
     ("required", .arr [.str "customer_id", .str "athlete_name"])]
  handler := fun axios args =>
    callApi axios "GET" ("/reports/athlete-report/" ++ (args.get "athlete_name").toJsString)
      (.obj []) (.obj [("customer_id", args.get "customer_id")])

/-- Tool `gerar_relatorio_equipe`: `GET /reports/team-report` with `customer_id`
as a query parameter. -/
def gerar_relatorio_equipe : ToolDef where
  name := "gerar_relatorio_equipe"
  description := "Gera relatório consolidado da equipe"
  inputSchema := .obj
    [("type", .str "object"),
     ("properties", .obj [("customer_id", .obj [("type", .str "string")])]),
     ("required", .arr [.str "customer_id"])]
  handler := fun axios args =>
    callApi axios "GET" "/reports/team-report" (.obj [])
      (.obj [("customer_id", args.get "customer_id")])

/-- Tool `gerar_grafico_performance`: `GET /charts/performance-chart` with three
query parameters. -/
def gerar_grafico_performance : ToolDef where
  name := "gerar_grafico_performance"
  description := "Gera gráfico de performance de uma métrica"
  inputSchema := .obj
    [("type", .str "object"),
     ("properties", .obj
       [("customer_id", .obj [("type", .str "string")]),
        ("athlete_name", .obj [("type", .str "string")]),
        ("metric_name", .obj [("type", .str "string")])]),
     ("required", .arr [.str "customer_id", .str "athlete_name", .str "metric_name"])]
  handler := fun axios args =>
    callApi axios "GET" "/charts/performance-chart" (.obj [])
      (.obj
        [("customer_id", args.get "customer_id"),
         ("athlete_name", args.get "athlete_name"),
         ("metric_name", args.get "metric_name")])

/-- The static `tools` array, in declaration order. -/
def tools : List ToolDef :=
  [adicionar_atleta, listar_atletas, buscar_atleta_pelo_nome, deletar_atleta,
   registrar_treino, registrar_avaliacao, registrar_bem_estar, gerar_mesociclo,
   gerar_relatorio_atleta, gerar_relatorio_equipe, gerar_grafico_performance]

/-- An inbound `/mcp` request body, after the handler's destructuring
`const { jsonrpc, id, method, params } = req.body`. A field absent from the
body destructures to `Json.undefined`. (`jsonrpc` is destructured by the source
but never read.) -/
structure McpRequest where
  id : Json
  method : Json
  params : Json

/-- A JSON-RPC error object `{code, message}`. -/
structure RpcError where
  code : Int
  message : String

/-- The response envelope `res.json({jsonrpc: "2.0", id, result, error})`.
`result`/`error` are `none` when the corresponding local variable is still
`undefined` (JSON serialization drops such fields). -/
structure McpResponse where
  jsonrpc : String
  id : Json
  result : Option Json
  error : Option RpcError

/-- A JavaScript exception escaping the request handler, leaving the
request without a response: here only the `TypeError` thrown by
destructuring `params` when it is `undefined` or `null`. -/
inductive DispatchFault where
  | typeError

/-- The fixed `initialize` result object. -/
def initializeResult : Json :=
  .obj
    [("protocolVersion", .str "2024-11-05"),
     ("capabilities", .obj [("tools", .obj [("listChanged", .bool false)])]),
     ("serverInfo", .obj
       [("name", .str "vector-ai-sports"), ("version", .str "1.0.0")])]

/-- The JSON serialization of one registry entry as it appears in the
`tools/list` response: `res.json` drops the function-valued `handler`
field, leaving `name`, `description` and `inputSchema`. -/
def toolSummary (t : ToolDef) : Json :=
  .obj
    [("name", .str t.name),
     ("description", .str t.description),
     ("inputSchema", t.inputSchema)]

/-- The `tools/list` result `{ tools }`, serialized. -/
def toolsListResult : Json := .obj [("tools", .arr (tools.map toolSummary))]

/-- The `/mcp` dispatch handler. Returns the response envelope together
with the remote calls issued while handling the request, or a
`DispatchFault` when the handler throws and no response is produced.
Mirrors the branch structure of `app.post("/mcp")`:
`initialize`, `tools/list`, `tools/call` (destructure `params`, look the
tool up by name, run its handler on `args || {}`), and the
method-not-found fallback. -/
def handleMcp (axios : Axios) (req : McpRequest) :
    Except DispatchFault (McpResponse × List RemoteCall) :=
  if req.method.eqStr "initialize" then
    .ok (⟨"2.0", req.id, some initializeResult, none⟩, [])
  else if req.method.eqStr "tools/list" then
    .ok (⟨"2.0", req.id, some toolsListResult, none⟩, [])
  else if req.method.eqStr "tools/call" then
    match req.params with
    | .undefined => .error .typeError
    | .null => .error .typeError
    | params =>
      let name := params.get "name"
      let args := params.get "arguments"
      match tools.find? (fun t => Json.eqStr name t.name) with
      | none =>
        .ok (⟨"2.0", req.id, none, some ⟨-32601, "Tool não encontrada"⟩⟩, [])
      | some tool =>
        let r := tool.handler axios (jsOr args (.obj []))
        .ok (⟨"2.0", req.id, some r.1, none⟩, r.2)
  else
    .ok (⟨"2.0", req.id, none,
          some ⟨-32601, "Method not found: " ++ req.method.toJsString⟩⟩, [])

/-- The request issued by the first `callApi` of the `deletar_atleta`
handler: `GET /athletes/${args.athlete_name}` with `customer_id` as query. -/
def resolveAthleteCall (args : Json) : RemoteCall :=
  ⟨"GET", "/athletes/" ++ (args.get "athlete_name").toJsString, .obj [],
   .obj [("customer_id", args.get "customer_id")]⟩

/-- The request issued by the second `callApi` of the `deletar_atleta`
handler: `DELETE /athletes/${atleta.id}` with `customer_id` in the body. -/
def deleteAthleteCall (args atleta : Json) : RemoteCall :=
  ⟨"DELETE", "/athletes/" ++ (atleta.get "id").toJsString,
   .obj [("customer_id", args.get "customer_id")], .obj []⟩

/-- The value a handler observes for one remote call: the first component
of `callApi` on that call's four arguments. -/
def remoteOutcome (axios : Axios) (c : RemoteCall) : Json :=
  (callApi axios c.method c.endpoint c.data c.params).1

/-- The locally synthesized outcome of `deletar_atleta` when no truthy id
is resolved. -/
def notFoundResult : Json :=
  .obj [("status", .str "erro"), ("detalhe", .str "Atleta não encontrado")]

/-- Oracle on which every remote call fails with HTTP 404 and a decoded
error body — e.g. an unknown athlete name. -/
def axiosFail404 : Axios := fun _ =>
  .failure (some ⟨404, .obj [("detail", .str "Athlete not found")]⟩)
    "Request failed with status code 404"

/-- Oracle on which every remote call fails with HTTP 500 and no decoded
body. -/
def axiosFail500 : Axios := fun _ =>
  .failure (some ⟨500, .null⟩) "Request failed with status code 500"

/-- Oracle that resolves every GET to an athlete record whose `id` is `0`
(a falsy but present identifier) and answers anything else with `ok`. -/
def axiosIdZero : Axios := fun c =>
  if c.method == "GET" then .success (.obj [("id", .num 0), ("name", .str "Ana")])
  else .success (.obj [("status", .str "ok")])

/-- Oracle that resolves every GET to an athlete record with id `7` and
answers anything else with `ok`. -/
def axiosIdSeven : Axios := fun c =>
  if c.method == "GET" then .success (.obj [("id", .num 7), ("name", .str "Ana")])
  else .success (.obj [("status", .str "ok")])

/-- A `tools/call` request for `deletar_atleta` on athlete `Ana`. -/
def deleteAnaRequest : McpRequest :=
  ⟨.num 9, .str "tools/call",
   .obj [("name", .str "deletar_atleta"),
         ("arguments", .obj [("customer_id", .str "c1"), ("athlete_name", .str "Ana")])]⟩

/-- A `tools/call` request for `listar_atletas`. -/
def listRequest : McpRequest :=
  ⟨.num 1, .str "tools/call",
   .obj [("name", .str "listar_atletas"),
         ("arguments", .obj [("customer_id", .str "c1")])]⟩

/-! ### Basic lemmas about the embedding -/

theorem Json.eqStr_iff (v : Json) (s : String) : v.eqStr s = true ↔ v = .str s := by
  cases v <;> simp [Json.eqStr]

theorem Json.eqStr_eq_false (v : Json) (s : String) (h : v ≠ .str s) :
    v.eqStr s = false := by
  cases hb : v.eqStr s
  · rfl
  · exact absurd ((Json.eqStr_iff v s).mp hb) h

theorem handleMcp_init_branch (axios : Axios) (req : McpRequest)
    (hm : req.method = .str "initialize") :
    handleMcp axios req = .ok (⟨"2.0", req.id, some initializeResult, none⟩, []) := by
  simp [handleMcp, hm, Json.eqStr]

theorem handleMcp_tools_list (axios : Axios) (req : McpRequest)
    (hm : req.method = .str "tools/list") :
    handleMcp axios req = .ok (⟨"2.0", req.id, some toolsListResult, none⟩, []) := by
  simp [handleMcp, hm, Json.eqStr]

theorem handleMcp_tools_call_noparams (axios : Axios) (req : McpRequest)
    (hm : req.method = .str "tools/call") (hp : req.params = .undefined) :
    handleMcp axios req = .error .typeError := by
  simp [handleMcp, hm, hp, Json.eqStr]

theorem handleMcp_tools_call_nullparams (axios : Axios) (req : McpRequest)
    (hm : req.method = .str "tools/call") (hp : req.params = .null) :
    handleMcp axios req = .error .typeError := by
  simp [handleMcp, hm, hp, Json.eqStr]

theorem handleMcp_tools_call_unknown (axios : Axios) (req : McpRequest)
    (hm : req.method = .str "tools/call")
    (hp : req.params ≠ .undefined) (hp' : req.params ≠ .null)
    (hfind : tools.find? (fun t => Json.eqStr (req.params.get "name") t.name) = none) :
    handleMcp axios req =
      .ok (⟨"2.0", req.id, none, some ⟨-32601, "Tool não encontrada"⟩⟩, []) := by
  have h1 : Json.eqStr (.str "tools/call") "initialize" = false := rfl
  have h2 : Json.eqStr (.str "tools/call") "tools/list" = false := rfl
  have h3 : Json.eqStr (.str "tools/call") "tools/call" = true := rfl
  cases hps : req.params
  case undefined => exact absurd hps hp
  case null => exact absurd hps hp'
  all_goals
    rw [hps] at hfind
    simp [handleMcp, hm, hps, h1, h2, h3, hfind, -List.find?_eq_none]

theorem handleMcp_tools_call_found (axios : Axios) (req : McpRequest) (t : ToolDef)
    (hm : req.method = .str "tools/call")
    (hp : req.params ≠ .undefined) (hp' : req.params ≠ .null)
    (hfind : tools.find? (fun tl => Json.eqStr (req.params.get "name") tl.name) = some t) :
    handleMcp axios req =
      .ok (⟨"2.0", req.id,
            some (t.handler axios (jsOr (req.params.get "arguments") (.obj []))).1, none⟩,
           (t.handler axios (jsOr (req.params.get "arguments") (.obj []))).2) := by
  have h1 : Json.eqStr (.str "tools/call") "initialize" = false := rfl
  have h2 : Json.eqStr (.str "tools/call") "tools/list" = false := rfl
  have h3 : Json.eqStr (.str "tools/call") "tools/call" = true := rfl
  cases hps : req.params
  case undefined => exact absurd hps hp
  case null => exact absurd hps hp'
  all_goals
    rw [hps] at hfind
    simp [handleMcp, hm, hps, h1, h2, h3, hfind]

theorem handleMcp_unknown_method (axios : Axios) (req : McpRequest)
    (h1 : req.method ≠ .str "initialize")
    (h2 : req.method ≠ .str "tools/list")
    (h3 : req.method ≠ .str "tools/call") :
    handleMcp axios req =
      .ok (⟨"2.0", req.id, none,
            some ⟨-32601, "Method not found: " ++ req.method.toJsString⟩⟩, []) := by
  simp [handleMcp, Json.eqStr_eq_false _ _ h1, Json.eqStr_eq_false _ _ h2,
    Json.eqStr_eq_false _ _ h3]

/-- Every registered handler except `deletar_atleta` issues a single
`callApi` and returns its outcome directly; when the oracle fails
uniformly, that outcome is the structured failure value. -/
theorem handler_result_of_failure (t : ToolDef) (ht : t ∈ tools)
    (hdel : t.name ≠ "deletar_atleta") (axios : Axios) (args : Json)
    (response : Option AxiosResponse) (message : String)
    (haxios : ∀ c, axios c = .failure response message) :
    (t.handler axios args).1 = failureValue response message := by
  simp only [tools, List.mem_cons, List.not_mem_nil, or_false] at ht
  rcases ht with rfl | rfl | rfl | rfl | rfl | rfl | rfl | rfl | rfl | rfl | rfl
  · simp [adicionar_atleta, callApi, haxios]
  · simp [listar_atletas, callApi, haxios]
  · simp [buscar_atleta_pelo_nome, callApi, haxios]
  · exact absurd rfl hdel
  · simp [registrar_treino, callApi, haxios]
  · simp [registrar_avaliacao, callApi, haxios]
  · simp [registrar_bem_estar, callApi, haxios]
  · simp [gerar_mesociclo, callApi, haxios]
  · simp [gerar_relatorio_atleta, callApi, haxios]
  · simp [gerar_relatorio_equipe, callApi, haxios]
  · simp [gerar_grafico_performance, callApi, haxios]

/-! ### Claim theorems -/

/-- C1, counterexample to the claim as stated: on an oracle where every
remote call fails with HTTP 404 (so a remote status exists), a
`tools/call` of `deletar_atleta` produces a `result` equal to the local
not-found value, which carries no `codigo` key at all and whose `detalhe`
is not the remote payload — not the claimed
`{status: "erro", codigo: 404, detalhe: <remote payload>}`. -/
theorem remote_failure_shape_counterexample :
    axiosFail404 (resolveAthleteCall (.obj [("customer_id", .str "c1"), ("athlete_name", .str "Ana")])) =
      .failure (some ⟨404, .obj [("detail", .str "Athlete not found")]⟩)
        "Request failed with status code 404" ∧
    handleMcp axiosFail404 deleteAnaRequest =
      .ok (⟨"2.0", .num 9, some notFoundResult, none⟩,
           [⟨"GET", "/athletes/Ana", .obj [], .obj [("customer_id", .str "c1")]⟩]) ∧
    notFoundResult.hasKey "codigo" = false :=
  ⟨rfl, rfl, rfl⟩

/-- C1 (amended): for every `tools/call` naming a registered tool other
than `deletar_atleta`, if the remote oracle fails (uniformly) with the
given optional response and message, the response's `result` (not `error`)
is the structured value `{status: "erro", codigo: <remote status or
undefined>, detalhe: <remote payload or local message>}` built by
`callApi`, and the protocol-level `error` field is absent. (For
`deletar_atleta` a failed resolution call instead yields the local
not-found value without `codigo`; see the C2 theorem.) -/
theorem remote_failure_result_amended (axios : Axios) (req : McpRequest) (t : ToolDef)
    (response : Option AxiosResponse) (message : String)
    (haxios : ∀ c, axios c = .failure response message)
    (hm : req.method = .str "tools/call")
    (hp : req.params ≠ .undefined) (hp' : req.params ≠ .null)
    (hfind : tools.find? (fun tl => Json.eqStr (req.params.get "name") tl.name) = some t)
    (hdel : t.name ≠ "deletar_atleta") :
    handleMcp axios req =
      .ok (⟨"2.0", req.id, some (failureValue response message), none⟩,
           (t.handler axios (jsOr (req.params.get "arguments") (.obj []))).2) := by
  rw [handleMcp_tools_call_found axios req t hm hp hp' hfind,
    handler_result_of_failure t (List.mem_of_find?_eq_some hfind) hdel axios _
      response message haxios]

/-- C1 witness: `listar_atletas` against an oracle failing with HTTP 500
yields `result = {status: "erro", codigo: 500, detalhe: <message>}`. -/
theorem remote_failure_result_witness :
    handleMcp axiosFail500 listRequest =
      .ok (⟨"2.0", .num 1,
            some (failureValue (some ⟨500, .null⟩) "Request failed with status code 500"),
            none⟩,
           [⟨"GET", "/athletes/", .obj [], .obj [("customer_id", .str "c1")]⟩]) :=
  remote_failure_result_amended axiosFail500 listRequest listar_atletas
    (some ⟨500, .null⟩) "Request failed with status code 500"
    (fun _ => rfl) rfl (fun h => Json.noConfusion h) (fun h => Json.noConfusion h)
    rfl (by decide)

/-- C2, counterexample to the claim as stated: the resolution outcome
`{id: 0, name: "Ana"}` does carry an `id` field, yet the handler issues no
deletion call and returns the local not-found value — the code's guard is
truthiness of `atleta?.id`, not presence of the field. -/
theorem deletar_atleta_id_zero_counterexample :
    axiosIdZero (resolveAthleteCall (.obj [("customer_id", .str "c1"), ("athlete_name", .str "Ana")])) =
      .success (.obj [("id", .num 0), ("name", .str "Ana")]) ∧
    (Json.obj [("id", .num 0), ("name", .str "Ana")]).hasKey "id" = true ∧
    deletar_atleta.handler axiosIdZero
        (.obj [("customer_id", .str "c1"), ("athlete_name", .str "Ana")]) =
      (notFoundResult,
       [⟨"GET", "/athletes/Ana", .obj [], .obj [("customer_id", .str "c1")]⟩]) :=
  ⟨rfl, rfl, rfl⟩

/-- C2 (amended): the `deletar_atleta` handler first issues the
name-resolution call; if the resolution outcome's `id` is not truthy
(field absent, `null`, `0`, `""`, or `false`), the deletion call is never
issued and the handler returns `{status: "erro", detalhe: "Atleta não
encontrado"}`; otherwise it issues exactly one deletion call whose path
uses the resolved id and returns that call's outcome unmodified. -/
theorem deletar_atleta_resolution_amended (axios : Axios) (args : Json) :
    (jsTruthy ((remoteOutcome axios (resolveAthleteCall args)).get "id") = false →
      deletar_atleta.handler axios args = (notFoundResult, [resolveAthleteCall args])) ∧
    (jsTruthy ((remoteOutcome axios (resolveAthleteCall args)).get "id") = true →
      deletar_atleta.handler axios args =
        (remoteOutcome axios
           (deleteAthleteCall args (remoteOutcome axios (resolveAthleteCall args))),
         [resolveAthleteCall args,
          deleteAthleteCall args (remoteOutcome axios (resolveAthleteCall args))])) := by
  cases hres : axios (resolveAthleteCall args) <;>
    constructor <;> intro h <;>
      (simp_all [deletar_atleta, remoteOutcome, resolveAthleteCall, deleteAthleteCall,
          callApi, notFoundResult];
        try (split <;> rfl))

/-- C2 witness: when the resolution call returns `{id: 7, name: "Ana"}`,
exactly one deletion call `DELETE /athletes/7` follows and its outcome is
returned unmodified. -/
theorem deletar_atleta_resolution_witness :
    jsTruthy ((remoteOutcome axiosIdSeven
        (resolveAthleteCall (.obj [("customer_id", .str "c1"), ("athlete_name", .str "Ana")]))).get "id")
      = true ∧
    deletar_atleta.handler axiosIdSeven
        (.obj [("customer_id", .str "c1"), ("athlete_name", .str "Ana")]) =
      (.obj [("status", .str "ok")],
       [⟨"GET", "/athletes/Ana", .obj [], .obj [("customer_id", .str "c1")]⟩,
        ⟨"DELETE", "/athletes/7", .obj [("customer_id", .str "c1")], .obj []⟩]) :=
  ⟨rfl,
   (deletar_atleta_resolution_amended axiosIdSeven
      (.obj [("customer_id", .str "c1"), ("athlete_name", .str "Ana")])).2 rfl⟩

/-- C3: a `tools/call` whose `params.name` matches no registered tool name
yields `error = {code: -32601, message: "Tool não encontrada"}`, `result`
absent, and no remote call is issued (the trace is empty). -/
theorem unknown_tool_error (axios : Axios) (req : McpRequest)
    (hm : req.method = .str "tools/call")
    (hp : req.params ≠ .undefined) (hp' : req.params ≠ .null)
    (hname : ∀ t ∈ tools, req.params.get "name" ≠ .str t.name) :
    handleMcp axios req =
      .ok (⟨"2.0", req.id, none, some ⟨-32601, "Tool não encontrada"⟩⟩, []) :=
  handleMcp_tools_call_unknown axios req hm hp hp'
    (List.find?_eq_none.mpr fun t ht hc =>
      hname t ht ((Json.eqStr_iff _ _).mp hc))

/-- C3 witness: the spec's scenario — a request naming tool `inexistente`
yields `{id: 2, error: {code: -32601, message: "Tool não encontrada"}}`. -/
theorem unknown_tool_error_witness :
    handleMcp axiosFail404 ⟨.num 2, .str "tools/call", .obj [("name", .str "inexistente")]⟩ =
      .ok (⟨"2.0", .num 2, none, some ⟨-32601, "Tool não encontrada"⟩⟩, []) :=
  unknown_tool_error axiosFail404
    ⟨.num 2, .str "tools/call", .obj [("name", .str "inexistente")]⟩
    rfl (fun h => Json.noConfusion h) (fun h => Json.noConfusion h)
    (by intro t ht h; simp [tools] at ht;
        rcases ht with rfl|rfl|rfl|rfl|rfl|rfl|rfl|rfl|rfl|rfl|rfl <;>
          simp_all [adicionar_atleta, listar_atletas, buscar_atleta_pelo_nome,
            deletar_atleta, registrar_treino, registrar_avaliacao, registrar_bem_estar,
            gerar_mesociclo, gerar_relatorio_atleta, gerar_relatorio_equipe,
            gerar_grafico_performance, Json.get])

/-- C4: for a request whose method is none of `initialize`, `tools/list`,
`tools/call`, the response carries `error.code = -32601` with the message
`"Method not found: "` followed by the stringified method (so the message
contains the unrecognized method name), `result` absent. -/
theorem unknown_method_error (axios : Axios) (req : McpRequest)
    (h1 : req.method ≠ .str "initialize")
    (h2 : req.method ≠ .str "tools/list")
    (h3 : req.method ≠ .str "tools/call") :
    handleMcp axios req =
      .ok (⟨"2.0", req.id, none,
            some ⟨-32601, "Method not found: " ++ req.method.toJsString⟩⟩, []) :=
  handleMcp_unknown_method axios req h1 h2 h3

/-- C4 witness: method `resources/list` yields
`error = {code: -32601, message: "Method not found: resources/list"}`. -/
theorem unknown_method_error_witness :
    handleMcp axiosFail404 ⟨.num 3, .str "resources/list", .undefined⟩ =
      .ok (⟨"2.0", .num 3, none,
            some ⟨-32601, "Method not found: resources/list"⟩⟩, []) :=
  unknown_method_error axiosFail404 ⟨.num 3, .str "resources/list", .undefined⟩
    (by simp) (by simp) (by simp)

/-- C5: for every `tools/call` naming a registered tool (with a
destructurable `params`), the handler's outcome — a total function in this
embedding, remote failures included, mirroring the `try/catch` in
`callApi` — is returned as `result`, `error` is absent, and a response
envelope is always produced. -/
theorem registered_tool_result (axios : Axios) (req : McpRequest) (t : ToolDef)
    (hm : req.method = .str "tools/call")
    (hp : req.params ≠ .undefined) (hp' : req.params ≠ .null)
    (hfind : tools.find? (fun tl => Json.eqStr (req.params.get "name") tl.name) = some t) :
    handleMcp axios req =
      .ok (⟨"2.0", req.id,
            some (t.handler axios (jsOr (req.params.get "arguments") (.obj []))).1, none⟩,
           (t.handler axios (jsOr (req.params.get "arguments") (.obj []))).2) :=
  handleMcp_tools_call_found axios req t hm hp hp' hfind

/-- C5 witness: the spec's scenario — `listar_atletas` against a remote
service returning `[{id: 1, name: "Ana"}]` yields
`{id: 1, result: [{id: 1, name: "Ana"}]}`. -/
theorem registered_tool_result_witness :
    handleMcp (fun _ => .success (.arr [.obj [("id", .num 1), ("name", .str "Ana")]]))
        listRequest =
      .ok (⟨"2.0", .num 1,
            some (.arr [.obj [("id", .num 1), ("name", .str "Ana")]]), none⟩,
           [⟨"GET", "/athletes/", .obj [], .obj [("customer_id", .str "c1")]⟩]) :=
  registered_tool_result (fun _ => .success (.arr [.obj [("id", .num 1), ("name", .str "Ana")]]))
    listRequest listar_atletas rfl
    (fun h => Json.noConfusion h) (fun h => Json.noConfusion h) rfl

/-- C6: whenever the dispatch handler produces a response, exactly one of
`result` and `error` is populated, across all four branches. -/
theorem result_error_exclusive (axios : Axios) (req : McpRequest)
    (resp : McpResponse) (trace : List RemoteCall)
    (h : handleMcp axios req = .ok (resp, trace)) :
    (resp.result.isSome = true ∧ resp.error = none) ∨
      (resp.result = none ∧ resp.error.isSome = true) := by
  by_cases h1 : req.method = .str "initialize"
  · rw [handleMcp_init_branch axios req h1] at h
    obtain ⟨rfl, -⟩ := by simpa using h.symm
    left; exact ⟨rfl, rfl⟩
  by_cases h2 : req.method = .str "tools/list"
  · rw [handleMcp_tools_list axios req h2] at h
    obtain ⟨rfl, -⟩ := by simpa using h.symm
    left; exact ⟨rfl, rfl⟩
  by_cases h3 : req.method = .str "tools/call"
  · by_cases hu : req.params = .undefined
    · rw [handleMcp_tools_call_noparams axios req h3 hu] at h
      exact absurd h (by simp)
    by_cases hn : req.params = .null
    · rw [handleMcp_tools_call_nullparams axios req h3 hn] at h
      exact absurd h (by simp)
    cases hfind : tools.find? (fun tl => Json.eqStr (req.params.get "name") tl.name) with
    | none =>
      rw [handleMcp_tools_call_unknown axios req h3 hu hn hfind] at h
      obtain ⟨rfl, -⟩ := by simpa using h.symm
      right; exact ⟨rfl, rfl⟩
    | some t =>
      rw [handleMcp_tools_call_found axios req t h3 hu hn hfind] at h
      obtain ⟨rfl, -⟩ := by simpa using h.symm
      left; exact ⟨rfl, rfl⟩
  · rw [handleMcp_unknown_method axios req h1 h2 h3] at h
    obtain ⟨rfl, -⟩ := by simpa using h.symm
    right; exact ⟨rfl, rfl⟩

/-- C6 witness: the exclusivity instantiated at a concrete `initialize`
request. -/
theorem result_error_exclusive_witness :
    ((McpResponse.mk "2.0" (.num 5) (some initializeResult) none).result.isSome = true ∧
      (McpResponse.mk "2.0" (.num 5) (some initializeResult) none).error = none) ∨
    ((McpResponse.mk "2.0" (.num 5) (some initializeResult) none).result = none ∧
      (McpResponse.mk "2.0" (.num 5) (some initializeResult) none).error.isSome = true) :=
  result_error_exclusive axiosFail404 ⟨.num 5, .str "initialize", .undefined⟩ _ [] rfl

/-- C7: an `initialize` request always yields exactly the fixed descriptor
`{protocolVersion: "2024-11-05", capabilities: {tools: {listChanged:
false}}, serverInfo: {name: "vector-ai-sports", version: "1.0.0"}}` as
`result`, independent of the oracle and the rest of the request. -/
theorem initialize_fixed_descriptor (axios : Axios) (req : McpRequest)
    (hm : req.method = .str "initialize") :
    handleMcp axios req =
      .ok (⟨"2.0", req.id,
            some (.obj
              [("protocolVersion", .str "2024-11-05"),
               ("capabilities", .obj [("tools", .obj [("listChanged", .bool false)])]),
               ("serverInfo", .obj
                 [("name", .str "vector-ai-sports"), ("version", .str "1.0.0")])]),
            none⟩, []) :=
  handleMcp_init_branch axios req hm

/-- C7 witness: the descriptor at a concrete request. -/
theorem initialize_fixed_descriptor_witness :
    handleMcp axiosFail404 ⟨.num 5, .str "initialize", .undefined⟩ =
      .ok (⟨"2.0", .num 5, some initializeResult, none⟩, []) :=
  initialize_fixed_descriptor axiosFail404 ⟨.num 5, .str "initialize", .undefined⟩ rfl

/-- C8: a `tools/list` request returns as `result` exactly the serialized
static catalog, in declaration order (the same constant on every call);
the catalog has 11 entries, each with a non-empty `name` and an
`inputSchema` key. -/
theorem tools_list_catalog (axios : Axios) (req : McpRequest)
    (hm : req.method = .str "tools/list") :
    handleMcp axios req =
      .ok (⟨"2.0", req.id, some (.obj [("tools", .arr (tools.map toolSummary))]), none⟩, []) ∧
    tools.length = 11 ∧
    ∀ t ∈ tools, t.name ≠ "" ∧ (toolSummary t).hasKey "inputSchema" = true := by
  refine ⟨handleMcp_tools_list axios req hm, rfl, ?_⟩
  intro t ht
  simp [tools] at ht
  rcases ht with rfl|rfl|rfl|rfl|rfl|rfl|rfl|rfl|rfl|rfl|rfl <;>
    exact ⟨by simp [adicionar_atleta, listar_atletas, buscar_atleta_pelo_nome,
      deletar_atleta, registrar_treino, registrar_avaliacao, registrar_bem_estar,
      gerar_mesociclo, gerar_relatorio_atleta, gerar_relatorio_equipe,
      gerar_grafico_performance], rfl⟩

/-- C8 witness: the catalog equation at a concrete request. -/
theorem tools_list_catalog_witness :
    handleMcp axiosFail404 ⟨.num 6, .str "tools/list", .undefined⟩ =
      .ok (⟨"2.0", .num 6, some (.obj [("tools", .arr (tools.map toolSummary))]), none⟩, []) ∧
    tools.length = 11 :=
  ⟨(tools_list_catalog axiosFail404 ⟨.num 6, .str "tools/list", .undefined⟩ rfl).1,
   (tools_list_catalog axiosFail404 ⟨.num 6, .str "tools/list", .undefined⟩ rfl).2.1⟩

/-- C9: `initialize` and `tools/list` are deterministic and read-only:
two requests with the same such method — even against different oracles —
yield responses identical except for the echoed `id`, and issue no remote
calls. -/
theorem idempotent_init_and_list (axios axios' : Axios) (req req' : McpRequest)
    (resp resp' : McpResponse) (trace trace' : List RemoteCall)
    (hmm : req.method = req'.method)
    (h : req.method = .str "initialize" ∨ req.method = .str "tools/list")
    (e1 : handleMcp axios req = .ok (resp, trace))
    (e2 : handleMcp axios' req' = .ok (resp', trace')) :
    resp.jsonrpc = resp'.jsonrpc ∧ resp.result = resp'.result ∧
      resp.error = resp'.error ∧ trace = [] ∧ trace' = [] := by
  rcases h with h | h
  · rw [handleMcp_init_branch axios req h] at e1
    rw [handleMcp_init_branch axios' req' (hmm.symm.trans h)] at e2
    obtain ⟨rfl, rfl⟩ := by simpa using e1.symm
    obtain ⟨rfl, rfl⟩ := by simpa using e2.symm
    exact ⟨rfl, rfl, rfl, rfl, rfl⟩
  · rw [handleMcp_tools_list axios req h] at e1
    rw [handleMcp_tools_list axios' req' (hmm.symm.trans h)] at e2
    obtain ⟨rfl, rfl⟩ := by simpa using e1.symm
    obtain ⟨rfl, rfl⟩ := by simpa using e2.symm
    exact ⟨rfl, rfl, rfl, rfl, rfl⟩

/-- C9 witness: two concrete `tools/list` requests with different ids and
different oracles produce equal `result` and `error` and issue no remote
calls. -/
theorem idempotent_init_and_list_witness :
    (McpResponse.mk "2.0" (.num 7) (some toolsListResult) none).jsonrpc =
      (McpResponse.mk "2.0" (.num 8) (some toolsListResult) none).jsonrpc ∧
    (McpResponse.mk "2.0" (.num 7) (some toolsListResult) none).result =
      (McpResponse.mk "2.0" (.num 8) (some toolsListResult) none).result ∧
    (McpResponse.mk "2.0" (.num 7) (some toolsListResult) none).error =
      (McpResponse.mk "2.0" (.num 8) (some toolsListResult) none).error ∧
    ([] : List RemoteCall) = [] ∧ ([] : List RemoteCall) = [] :=
  idempotent_init_and_list axiosFail404 axiosFail500
    ⟨.num 7, .str "tools/list", .undefined⟩ ⟨.num 8, .str "tools/list", .undefined⟩
    _ _ _ _ rfl (Or.inr rfl) rfl rfl

/-- C10: a `tools/call` request whose body carries no `params` at all
(`params` destructures to `undefined`) makes the handler throw a
`TypeError` at the destructuring, before any registry lookup: no response
envelope is produced and no remote call is issued. -/
theorem missing_params_typeerror (axios : Axios) (req : McpRequest)
    (hm : req.method = .str "tools/call") (hp : req.params = .undefined) :
    handleMcp axios req = .error .typeError :=
  handleMcp_tools_call_noparams axios req hm hp

/-- C10 witness: the fault at a concrete request. -/
theorem missing_params_typeerror_witness :
    handleMcp axiosFail404 ⟨.num 4, .str "tools/call", .undefined⟩ = .error .typeError :=
  missing_params_typeerror axiosFail404 ⟨.num 4, .str "tools/call", .undefined⟩ rfl rfl

end VectorMCP
